import Mathlib

/-!
Verification development for the atelier-aegis core: the rule-based
learning-condition estimator (`packages/inference/src/estimator.ts`) and the
pedagogical policy engine (`packages/policy/src/engine.ts`).

Modelling conventions:
* JavaScript numbers are modelled as rationals (`ℚ`); every numeric literal
  in the source is exactly representable.
* TypeScript `T | null` and optional fields are modelled as `Option`.
* `Math.sqrt` (used only inside the gaze-stability update) has no exact
  rational counterpart; the embedding is parameterised by an arbitrary
  function `sqrtQ : ℚ → ℚ` standing for it.  No verified property depends
  on its value.
* `Math.random()` (phrase choice) and `Date.now()` (intervention id) are
  modelled by injected parameters `msgIdx : ℕ` and `idStr : String`,
  following the design note that phrase selection is cosmetic.
* Reasoning strings are template strings in the source; each template is
  modelled by one constructor of the inductive `Reason`, carrying exactly
  the numeric/label parameters interpolated into the template.
-/

namespace Aegis

/-- The five learning-condition labels, in the declared priority order. -/
inductive LearningCondition
  | attentive
  | wandering
  | confused
  | overloaded
  | fatigued
  deriving DecidableEq, Repr, Fintype

/-- Record of the five condition scores (`ConditionProbabilities` in the source). -/
structure ConditionProbabilities where
  attentive : ℚ
  wandering : ℚ
  confused : ℚ
  overloaded : ℚ
  fatigued : ℚ
  deriving DecidableEq, Repr

/-- Score accessor by label. -/
def condScore (c : ConditionProbabilities) : LearningCondition → ℚ
  | .attentive => c.attentive
  | .wandering => c.wandering
  | .confused => c.confused
  | .overloaded => c.overloaded
  | .fatigued => c.fatigued

/-- A human-readable driver of a condition estimate. -/
structure ConditionDriver where
  description : String
  features : List String
  weight : ℚ
  deriving DecidableEq, Repr

/-- One emitted condition-state snapshot. -/
structure LearningConditionState where
  t : ℚ
  condition : ConditionProbabilities
  confidence : ℚ
  drivers : List ConditionDriver
  not_used : List String
  dominant : LearningCondition
  deriving DecidableEq, Repr

-- ---------------------------------------------------------------------------
-- Feature stream events (the estimator's input schema)
-- ---------------------------------------------------------------------------

/-- Quality flags carried by every sample. -/
structure QualityFlags where
  face_present : Bool
  multiple_faces : Bool
  occluded : Bool
  low_light : Bool
  confidence : ℚ
  deriving DecidableEq, Repr

/-- Head pose angles. -/
structure HeadPose where
  yaw : ℚ
  pitch : ℚ
  roll : ℚ
  deriving DecidableEq, Repr

/-- Gaze estimate. -/
structure GazeEstimate where
  x : ℚ
  y : ℚ
  confidence : ℚ
  deriving DecidableEq, Repr

/-- Eye metrics. -/
structure EyeMetrics where
  blink_rate_30s : ℚ
  openness_l : ℚ
  openness_r : ℚ
  deriving DecidableEq, Repr

/-- Always-present interaction telemetry; `idle_seconds` is optional. -/
structure InteractionTelemetry where
  scroll_speed : ℚ
  tap_rate_10s : ℚ
  retry_count_60s : ℚ
  idle_seconds : Option ℚ
  deriving DecidableEq, Repr

/-- One normalized feature-stream sample.  Perceptual fields are nullable
(`Option`); the expressivity payload is never read by the estimator, so only
its presence is modelled. -/
structure FeatureStreamEvent where
  t : ℚ
  quality : QualityFlags
  pose : Option HeadPose
  gaze : Option GazeEstimate
  eyes : Option EyeMetrics
  expressivity : Option Unit
  interaction : InteractionTelemetry
  deriving DecidableEq, Repr

-- ---------------------------------------------------------------------------
-- Estimator
-- ---------------------------------------------------------------------------

/-- Estimator configuration (unused `baselines` omitted). -/
structure EstimatorConfig where
  window_s : ℚ
  emit_interval_s : ℚ
  confidence_threshold : ℚ
  deriving DecidableEq, Repr

/-- `DEFAULT_ESTIMATOR_CONFIG`. -/
def defaultEstimatorConfig : EstimatorConfig :=
  { window_s := 60, emit_interval_s := 3, confidence_threshold := 0.4 }

/-- The six EWMA-smoothed signal channels. -/
structure Smoothed where
  gaze_stability : ℚ
  pose_stability : ℚ
  blink_rate : ℚ
  interaction_pace : ℚ
  retry_rate : ℚ
  idle_time : ℚ
  deriving DecidableEq, Repr

/-- Initial smoothed values (constructor and `reset`). -/
def initSmoothed : Smoothed :=
  { gaze_stability := 0.5
    pose_stability := 0.5
    blink_rate := 0.2
    interaction_pace := 0.5
    retry_rate := 0
    idle_time := 0 }

/-- EWMA smoothing factor `ALPHA = 0.15`. -/
def ALPHA : ℚ := 0.15

/-- `ewma(prev, next, alpha) = alpha * next + (1 - alpha) * prev`. -/
def ewma (prev next alpha : ℚ) : ℚ :=
  alpha * next + (1 - alpha) * prev

/-- Mutable estimator state. -/
structure EstimatorState where
  config : EstimatorConfig
  buffer : List FeatureStreamEvent
  lastEmit : ℚ
  currentTier : ℕ
  smoothed : Smoothed
  deriving DecidableEq, Repr

/-- Freshly constructed estimator. -/
def mkEstimator (cfg : EstimatorConfig) (tier : ℕ) : EstimatorState :=
  { config := cfg, buffer := [], lastEmit := 0, currentTier := tier,
    smoothed := initSmoothed }

/-- `setTier`. -/
def setTier (tier : ℕ) (st : EstimatorState) : EstimatorState :=
  { st with currentTier := tier }

/-- `reset()` on the estimator. -/
def resetEstimator (st : EstimatorState) : EstimatorState :=
  { st with buffer := [], lastEmit := 0, smoothed := initSmoothed }

/-- `updateSmoothedSignals`: each channel updates its EWMA only when the
relevant sample field is present; `interaction_pace` and `retry_rate` always
update since `interaction` is always present.  `sqrtQ` stands for
`Math.sqrt`. -/
def updateSmoothedSignals (sqrtQ : ℚ → ℚ) (event : FeatureStreamEvent)
    (s : Smoothed) : Smoothed :=
  let gs := match event.gaze with
    | none => s.gaze_stability
    | some g =>
        let gazeOffset := sqrtQ (g.x ^ 2 + g.y ^ 2)
        let stability := max 0 (1 - gazeOffset * 2)
        ewma s.gaze_stability stability ALPHA
  let ps := match event.pose with
    | none => s.pose_stability
    | some p =>
        let poseMovement := |p.yaw| + |p.pitch| + |p.roll|
        let stability := max 0 (1 - poseMovement * 2)
        ewma s.pose_stability stability ALPHA
  let br := match event.eyes with
    | none => s.blink_rate
    | some e => ewma s.blink_rate e.blink_rate_30s (ALPHA * 0.5)
  let ip := ewma s.interaction_pace event.interaction.tap_rate_10s ALPHA
  let rr := ewma s.retry_rate event.interaction.retry_count_60s ALPHA
  let it := match event.interaction.idle_seconds with
    | none => s.idle_time
    | some idle => ewma s.idle_time idle ALPHA
  { gaze_stability := gs, pose_stability := ps, blink_rate := br,
    interaction_pace := ip, retry_rate := rr, idle_time := it }

/-- `pruneBuffer`: drop the leading entries older than `now - window_s`. -/
def pruneBuffer (buffer : List FeatureStreamEvent) (now window : ℚ) :
    List FeatureStreamEvent :=
  buffer.dropWhile (fun e => decide (e.t < now - window))

/-- `ingest(event)`: push into the buffer, update the smoothed signals,
prune the buffer by the event's own timestamp. -/
def ingest (sqrtQ : ℚ → ℚ) (event : FeatureStreamEvent)
    (st : EstimatorState) : EstimatorState :=
  { st with
    buffer := pruneBuffer (st.buffer ++ [event]) event.t st.config.window_s
    smoothed := updateSmoothedSignals sqrtQ event st.smoothed }

/-- `clamp(v)` with default bounds `[0, 1]`. -/
def clamp (v : ℚ) : ℚ :=
  min 1 (max 0 v)

/-- `computeConditions`: five independently clamped weighted sums. -/
def computeConditions (s : Smoothed) : ConditionProbabilities :=
  let attentive := clamp
    (s.gaze_stability * 0.4 +
     s.pose_stability * 0.3 +
     (if s.interaction_pace > 0.05 then 0.3 else 0.1))
  let wandering := clamp
    ((1 - s.gaze_stability) * 0.4 +
     (1 - s.pose_stability) * 0.3 +
     (if s.idle_time > 10 then 0.3 else s.idle_time * 0.03))
  let confused := clamp
    (min (s.retry_rate * 0.3) 0.4 +
     (if s.interaction_pace < 0.1 ∧ s.retry_rate > 0 then 0.3 else 0) +
     (1 - s.gaze_stability) * 0.15)
  let overloaded := clamp
    ((if s.blink_rate > 0.3 then (s.blink_rate - 0.3) * 2 else 0) * 0.4 +
     (if s.retry_rate > 1 then 0.3 else s.retry_rate * 0.3) +
     (if s.interaction_pace > 0.5 then 0.2 else 0))
  let fatigued := clamp
    ((if s.blink_rate > 0.25 then (s.blink_rate - 0.25) * 2 else 0) * 0.3 +
     (if s.idle_time > 5 then min (s.idle_time * 0.03) 0.3 else 0) +
     (if s.interaction_pace < 0.05 then 0.3 else 0))
  { attentive := attentive, wandering := wandering, confused := confused,
    overloaded := overloaded, fatigued := fatigued }

/-- `computeConfidence`: tier bonus + buffer fill + data-availability bonuses
+ base 0.1, clamped. -/
def computeConfidence (tier : ℕ) (buffer : List FeatureStreamEvent) : ℚ :=
  let tierBonus := (tier : ℚ) * 0.15
  let bufferFill := min ((buffer.length : ℚ) / 100) 0.3
  let hasGaze := if buffer.any (fun e => e.gaze.isSome) then (0.15 : ℚ) else 0
  let hasFace := if buffer.any (fun e => e.quality.face_present) then (0.15 : ℚ) else 0
  clamp (tierBonus + bufferFill + hasGaze + hasFace + 0.1)

/-- Stable-descending insertion for drivers (models the stable
`sort((a, b) => b.weight - a.weight)`). -/
def insertDriverDesc (x : ConditionDriver) :
    List ConditionDriver → List ConditionDriver
  | [] => [x]
  | y :: ys =>
      if x.weight ≥ y.weight then x :: y :: ys else y :: insertDriverDesc x ys

/-- Stable sort of drivers by descending weight. -/
def sortDriversDesc : List ConditionDriver → List ConditionDriver
  | [] => []
  | x :: xs => insertDriverDesc x (sortDriversDesc xs)

/-- `computeDrivers`: fixed cutoffs against the smoothed state, sorted by
descending weight. -/
def computeDrivers (s : Smoothed) : List ConditionDriver :=
  let ds :=
    (if s.gaze_stability < 0.4 then
      [{ description := "frequent gaze breaks",
         features := ["gaze.x", "gaze.y"], weight := 0.4 }] else []) ++
    (if s.pose_stability < 0.4 then
      [{ description := "head pose drift",
         features := ["pose.yaw", "pose.pitch", "pose.roll"], weight := 0.3 }] else []) ++
    (if s.retry_rate > 0.5 then
      [{ description := toString (round s.retry_rate) ++ " retries in last minute",
         features := ["interaction.retry_count_60s"], weight := 0.35 }] else []) ++
    (if s.idle_time > 10 then
      [{ description := "extended idle period",
         features := ["interaction.idle_seconds"], weight := 0.25 }] else []) ++
    (if s.blink_rate > 0.3 then
      [{ description := "elevated blink rate",
         features := ["eyes.blink_rate_30s"], weight := 0.2 }] else []) ++
    (if s.interaction_pace < 0.05 then
      [{ description := "slower response times",
         features := ["interaction.tap_rate_10s"], weight := 0.2 }] else [])
  sortDriversDesc ds

/-- `computeNotUsed`. -/
def computeNotUsed (tier : ℕ) (buffer : List FeatureStreamEvent) : List String :=
  if tier = 0 then
    ["gaze direction (camera off)", "head pose (camera off)",
     "blink rate (camera off)", "face distance (camera off)"]
  else
    (if buffer.any (fun e => e.gaze.isSome) then []
     else ["gaze direction (not available at this tier)"]) ++
    (if buffer.any (fun e => e.expressivity.isSome) then []
     else ["expressivity signals (disabled by default)"])

/-- The condition entries in declared insertion order, as iterated by
`Object.entries` in `findDominant`. -/
def condEntries (c : ConditionProbabilities) : List (LearningCondition × ℚ) :=
  [(.attentive, c.attentive), (.wandering, c.wandering), (.confused, c.confused),
   (.overloaded, c.overloaded), (.fatigued, c.fatigued)]

/-- One step of the `findDominant` loop: replace the running
(label, maximum) pair when the entry's value is strictly greater. -/
def domStep (acc e : LearningCondition × ℚ) : LearningCondition × ℚ :=
  if e.2 > acc.2 then e else acc

/-- `findDominant`: linear scan with strict `>` against a running maximum
initialised to `-1` and default label `attentive`. -/
def findDominant (c : ConditionProbabilities) : LearningCondition :=
  ((condEntries c).foldl domStep (LearningCondition.attentive, (-1 : ℚ))).1

/-- `estimate(now)`: emits a snapshot when at least `emit_interval_s` has
elapsed since the last emission, updating `lastEmit`; otherwise yields
nothing. -/
def estimate (now : ℚ) (st : EstimatorState) :
    Option LearningConditionState × EstimatorState :=
  if now - st.lastEmit < st.config.emit_interval_s then
    (none, st)
  else
    let condition := computeConditions st.smoothed
    (some
      { t := now
        condition := condition
        confidence := computeConfidence st.currentTier st.buffer
        drivers := computeDrivers st.smoothed
        not_used := computeNotUsed st.currentTier st.buffer
        dominant := findDominant condition },
     { st with lastEmit := now })

-- ---------------------------------------------------------------------------
-- Policy engine
-- ---------------------------------------------------------------------------

/-- The five intervention classes. -/
inductive InterventionClass
  | pace
  | modality
  | hint
  | reset
  | agency
  deriving DecidableEq, Repr

/-- Learner frequency preference. -/
inductive Frequency
  | fewer
  | default
  | more
  deriving DecidableEq, Repr

/-- Learner preferences. -/
structure LearnerPreferences where
  frequency : Frequency
  preferred_modality : Option String
  offer_breaks : Bool
  offer_hints : Bool
  deriving DecidableEq, Repr

/-- Policy configuration. -/
structure PolicyConfig where
  confidence_threshold : ℚ
  sustained_window_s : ℚ
  cooldown_s : ℚ
  max_per_10min : ℚ
  preferences : LearnerPreferences
  deriving DecidableEq, Repr

/-- `DEFAULT_POLICY_CONFIG`. -/
def defaultPolicyConfig : PolicyConfig :=
  { confidence_threshold := 0.5
    sustained_window_s := 15
    cooldown_s := 120
    max_per_10min := 3
    preferences :=
      { frequency := .default
        preferred_modality := none
        offer_breaks := true
        offer_hints := true } }

/-- Action attached to an intervention option. -/
inductive OptionAction
  | accept
  | dismiss
  | alternative
  deriving DecidableEq, Repr

/-- One option presented to the learner. -/
structure InterventionOption where
  id : String
  label : String
  action : OptionAction
  deriving DecidableEq, Repr

/-- An intervention offer (`cls` models the `class` field, a Lean keyword). -/
structure Intervention where
  id : String
  cls : InterventionClass
  message : String
  options : List InterventionOption
  triggered_by : List String
  confidence : ℚ
  deriving DecidableEq, Repr

/-- One reasoning template of the engine, with the values it interpolates:
`attentiveNow` = "Learner appears attentive.";
`lowConfidence c th` = "Confidence c below threshold th. I may be mistaken.";
`notSustained cond w` = "Condition cond not yet sustained for w s.";
`cooldownActive r` = "Cooldown active (r s remaining). Avoiding nagging.";
`rateLimited n` = "Already offered n interventions in the last 10 minutes.";
`intervening cond c cls` = "Sustained cond (confidence c) - offering cls.". -/
inductive Reason
  | attentiveNow
  | lowConfidence (confidence threshold : ℚ)
  | notSustained (condition : LearningCondition) (window : ℚ)
  | cooldownActive (remaining : ℤ)
  | rateLimited (count : ℕ)
  | intervening (condition : LearningCondition) (confidence : ℚ)
      (cls : InterventionClass)
  deriving DecidableEq, Repr

/-- The policy engine's output for one `evaluate` call. -/
structure InterventionDecision where
  should_intervene : Bool
  intervention : Option Intervention
  reasoning : Reason
  next_evaluation_s : ℚ
  deriving DecidableEq, Repr

/-- One entry of the intervention-record history (`cls` models `class`). -/
structure HistoryEntry where
  t : ℚ
  cls : InterventionClass
  deriving DecidableEq, Repr

/-- One entry of the condition history ring. -/
structure ConditionHistoryEntry where
  t : ℚ
  condition : LearningCondition
  deriving DecidableEq, Repr

/-- Mutable policy-engine state. -/
structure EngineState where
  config : PolicyConfig
  history : List HistoryEntry
  lastInterventionTime : ℚ
  conditionHistory : List ConditionHistoryEntry
  deriving DecidableEq, Repr

/-- Freshly constructed engine (the TS constructor spreads a partial config
over the defaults; any full config is reachable that way). -/
def mkEngine (cfg : PolicyConfig) : EngineState :=
  { config := cfg, history := [], lastInterventionTime := 0,
    conditionHistory := [] }

/-- `RESPONSE_GRAMMAR`. -/
def responseGrammar : InterventionClass → List String
  | .pace =>
      ["We may have moved too quickly.",
       "A smaller step might be kinder.",
       "Perhaps we could slow down here."]
  | .modality =>
      ["Would another form help?",
       "A diagram might make this clearer - shall I try?",
       "Sometimes a different angle helps. Would you like an example?"]
  | .hint =>
      ["There may be a gentler way into this.",
       "A small nudge might help - would you like one?",
       "I could offer a starting point, if you wish."]
  | .reset =>
      ["Shall we pause briefly?",
       "A moment of rest might be welcome.",
       "Your attention has been generous. A short breath?"]
  | .agency =>
      ["What would feel most helpful right now?",
       "Would you prefer an example or a diagram?",
       "You know best - what would you like to try?"]

/-- `CONDITION_INTERVENTIONS`: candidate classes per dominant label. -/
def conditionInterventions : LearningCondition → List InterventionClass
  | .attentive => []
  | .wandering => [.reset, .modality]
  | .confused => [.hint, .pace, .modality]
  | .overloaded => [.pace, .reset]
  | .fatigued => [.reset, .pace]

/-- `acceptLabel`. -/
def acceptLabel : InterventionClass → String
  | .pace => "Slow down"
  | .modality => "Show me"
  | .hint => "Yes, a hint"
  | .reset => "Take a break"
  | .agency => "Choose for me"

/-- `noIntervention(reasoning, nextEval)`. -/
def noIntervention (reasoning : Reason) (nextEval : ℚ) : InterventionDecision :=
  { should_intervene := false, intervention := none, reasoning := reasoning,
    next_evaluation_s := nextEval }

/-- `adjustedThreshold`. -/
def adjustedThreshold (cfg : PolicyConfig) : ℚ :=
  let base := cfg.confidence_threshold
  match cfg.preferences.frequency with
  | .fewer => base + 0.1
  | .more => max (base - 0.1) 0.3
  | .default => base

/-- `adjustedCooldown`. -/
def adjustedCooldown (cfg : PolicyConfig) : ℚ :=
  let base := cfg.cooldown_s
  match cfg.preferences.frequency with
  | .fewer => base * 1.5
  | .more => base * 0.7
  | .default => base

/-- `isSustained(condition, now)`: the dominant label must account for at
least 60% of the condition-history entries in the trailing window; an empty
trailing window fails. -/
def isSustained (ch : List ConditionHistoryEntry)
    (condition : LearningCondition) (now window : ℚ) : Bool :=
  let cutoff := now - window
  let recent := ch.filter (fun h => decide (cutoff ≤ h.t))
  if recent.length = 0 then false
  else
    let matchCount :=
      (recent.filter (fun h => h.condition = condition)).length
    decide ((matchCount : ℚ) / (recent.length : ℚ) ≥ 0.6)

/-- `pruneConditionHistory(now)`: shift off leading entries older than
`now - 2 * sustained_window_s`. -/
def pruneConditionHistory (ch : List ConditionHistoryEntry)
    (now window : ℚ) : List ConditionHistoryEntry :=
  ch.dropWhile (fun h => decide (h.t < now - window * 2))

/-- `chooseClass(candidates, state)`: preference filtering, then variety
against the most recent intervention class, with the source's fallback chain
`(varied | filtered)[0] ?? candidates[0]` (`none` = the `undefined` that TS
would produce on an empty candidate list). -/
def chooseClass (cfg : PolicyConfig) (history : List HistoryEntry)
    (candidates : List InterventionClass) : Option InterventionClass :=
  let filtered := candidates.filter (fun c =>
    if c = InterventionClass.reset ∧ cfg.preferences.offer_breaks = false then
      false
    else if c = InterventionClass.hint ∧ cfg.preferences.offer_hints = false then
      false
    else true)
  let lastClass := (history.getLast?).map (·.cls)
  let varied := filtered.filter (fun c => decide (some c ≠ lastClass))
  match (if varied.length > 0 then varied else filtered).head? with
  | some c => some c
  | none => candidates.head?

/-- `buildIntervention(cls, state)`: options are `[accept, dismiss]`, with an
`alternative` option spliced in at index 1 for the agency and modality
classes.  `msgIdx`/`idStr` inject `Math.random()`/`Date.now()`. -/
def buildIntervention (msgIdx : ℕ) (idStr : String) (cls : InterventionClass)
    (state : LearningConditionState) : Intervention :=
  let messages := responseGrammar cls
  let message := messages.getD (msgIdx % messages.length) ""
  let options : List InterventionOption :=
    if cls = .agency ∨ cls = .modality then
      [{ id := "accept", label := acceptLabel cls, action := .accept },
       { id := "alternative", label := "Something else", action := .alternative },
       { id := "dismiss", label := "Not now", action := .dismiss }]
    else
      [{ id := "accept", label := acceptLabel cls, action := .accept },
       { id := "dismiss", label := "Not now", action := .dismiss }]
  { id := idStr, cls := cls, message := message, options := options,
    triggered_by := state.drivers.map (·.description),
    confidence := state.confidence }

/-- `evaluate(state)`: record the dominant label into the condition history,
prune it, then run the five gates in order, short-circuiting on the first
failure; on full success, choose a class, build the intervention, append an
intervention record and update the last-intervention time. -/
def evaluate (msgIdx : ℕ) (idStr : String) (state : LearningConditionState)
    (st : EngineState) : InterventionDecision × EngineState :=
  let now := state.t
  let ch := pruneConditionHistory
    (st.conditionHistory ++ [{ t := now, condition := state.dominant }])
    now st.config.sustained_window_s
  let st1 : EngineState := { st with conditionHistory := ch }
  match conditionInterventions state.dominant with
  | [] => (noIntervention .attentiveNow 10, st1)
  | c :: rest =>
    let candidates := c :: rest
    let threshold := adjustedThreshold st1.config
    if state.confidence < threshold then
      (noIntervention (.lowConfidence state.confidence threshold) 5, st1)
    else if !(isSustained st1.conditionHistory state.dominant now
        st1.config.sustained_window_s) then
      (noIntervention
        (.notSustained state.dominant st1.config.sustained_window_s) 5, st1)
    else
      let timeSinceLast := now - st1.lastInterventionTime
      let cooldown := adjustedCooldown st1.config
      if timeSinceLast < cooldown then
        let remaining := Int.ceil (cooldown - timeSinceLast)
        (noIntervention (.cooldownActive remaining) (remaining : ℚ), st1)
      else
        let recentCount :=
          (st1.history.filter (fun h => decide (now - h.t < 600))).length
        if (recentCount : ℚ) ≥ st1.config.max_per_10min then
          (noIntervention (.rateLimited recentCount) 60, st1)
        else
          let icls := (chooseClass st1.config st1.history candidates).getD c
          let intervention := buildIntervention msgIdx idStr icls state
          ({ should_intervene := true
             intervention := some intervention
             reasoning := .intervening state.dominant state.confidence icls
             next_evaluation_s := cooldown },
           { st1 with
             history := st1.history ++ [{ t := now, cls := icls }]
             lastInterventionTime := now })

/-- Learner response choice passed to `recordResponse`. -/
inductive ResponseChoice
  | accept
  | dismiss
  | alternative
  deriving DecidableEq, Repr

/-- `recordResponse(interventionId, optionChosen)`: dismiss extends the
cooldown (cap 300), accept shortens it (floor 60), alternative does
nothing.  The intervention id is ignored by the source. -/
def recordResponse (_interventionId : String) (choice : ResponseChoice)
    (st : EngineState) : EngineState :=
  match choice with
  | .dismiss =>
      { st with config :=
        { st.config with cooldown_s := min (st.config.cooldown_s + 15) 300 } }
  | .accept =>
      { st with config :=
        { st.config with cooldown_s := max (st.config.cooldown_s - 5) 60 } }
  | .alternative => st

/-- `updatePreferences(prefs)`: the TS merge of a partial record over the
current preferences can produce any full preference record, modelled as a
replacement. -/
def updatePreferences (prefs : LearnerPreferences) (st : EngineState) :
    EngineState :=
  { st with config := { st.config with preferences := prefs } }

/-- `reset()` on the engine: clears both histories and the last-intervention
time; the config (including the self-tuned cooldown) is kept. -/
def resetEngine (st : EngineState) : EngineState :=
  { st with history := [], conditionHistory := [], lastInterventionTime := 0 }

/-- One externally invokable engine operation, for stating whole-lifecycle
invariants. -/
inductive EngineOp
  | eval (msgIdx : ℕ) (idStr : String) (state : LearningConditionState)
  | record (interventionId : String) (choice : ResponseChoice)
  | updatePrefs (prefs : LearnerPreferences)
  | resetOp

/-- Apply one engine operation. -/
def applyOp (op : EngineOp) (st : EngineState) : EngineState :=
  match op with
  | .eval m i s => (evaluate m i s st).2
  | .record id c => recordResponse id c st
  | .updatePrefs p => updatePreferences p st
  | .resetOp => resetEngine st

/-- Run a sequence of engine operations from an initial state. -/
def runOps (ops : List EngineOp) (st : EngineState) : EngineState :=
  ops.foldl (fun s op => applyOp op s) st

-- ---------------------------------------------------------------------------
-- Spec-side formulations and concrete test data
-- ---------------------------------------------------------------------------

/-- The confidence formula as the specification states it: clamp of
0.15·tier + min(buffer_length/100, 0.3) + 0.15 if some buffered sample has
gaze data + 0.15 if some buffered sample reports face presence + 0.10. -/
def claimConfidenceFormula (tier : ℕ) (buffer : List FeatureStreamEvent) : ℚ :=
  clamp ((0.15 : ℚ) * (tier : ℚ) + min ((buffer.length : ℚ) / 100) 0.3 +
    (if ∃ e ∈ buffer, e.gaze.isSome then (0.15 : ℚ) else 0) +
    (if ∃ e ∈ buffer, e.quality.face_present then (0.15 : ℚ) else 0) + 0.10)

/-- Position of a label in the declared priority order. -/
def priorityIdx : LearningCondition → ℕ
  | .attentive => 0
  | .wandering => 1
  | .confused => 2
  | .overloaded => 3
  | .fatigued => 4

/-- A condition state with dominant label `attentive`, for concrete runs. -/
def attTestState (t : ℚ) : LearningConditionState :=
  { t := t, condition := ⟨1, 0, 0, 0, 0⟩, confidence := 0.9,
    drivers := [], not_used := [], dominant := .attentive }

/-- A condition state with dominant label `confused`, for concrete runs. -/
def confTestState (t : ℚ) : LearningConditionState :=
  { t := t, condition := ⟨0, 0, 1, 0, 0⟩, confidence := 0.9,
    drivers := [], not_used := [], dominant := .confused }

/-- Default policy config with the frequency preference set to `more`. -/
def morePolicyConfig : PolicyConfig :=
  { defaultPolicyConfig with preferences :=
    { defaultPolicyConfig.preferences with frequency := .more } }

/-- Engine after ten evaluate calls on attentive-dominant states at
t = 0, 1, ..., 9, starting from a freshly constructed default engine. -/
def tenAttentiveEngine : EngineState :=
  runOps ((List.range 10).map (fun i => .eval 0 "a" (attTestState i)))
    (mkEngine defaultPolicyConfig)

/-- The state a fresh tier-0 default estimator emits at `now = 10`. -/
def emittedAtTen : LearningConditionState :=
  { t := 10
    condition :=
      { attentive := 13/20, wandering := 7/20, confused := 3/40,
        overloaded := 0, fatigued := 0 }
    confidence := 1/10
    drivers := []
    not_used :=
      ["gaze direction (camera off)", "head pose (camera off)",
       "blink rate (camera off)", "face distance (camera off)"]
    dominant := .attentive }

/-- A telemetry-only sample (every optional perceptual field absent), as the
tier-0 pipeline produces. -/
def telemetryOnlySample : FeatureStreamEvent :=
  { t := 1
    quality :=
      { face_present := false, multiple_faces := false, occluded := false,
        low_light := false, confidence := 0 }
    pose := none
    gaze := none
    eyes := none
    expressivity := none
    interaction :=
      { scroll_speed := 0, tap_rate_10s := 0.2, retry_count_60s := 0,
        idle_seconds := none } }

-- ---------------------------------------------------------------------------
-- Helper lemmas
-- ---------------------------------------------------------------------------

/-- Clamped values are nonnegative. -/
theorem clamp_nonneg (v : ℚ) : 0 ≤ clamp v :=
  le_min (by norm_num) (le_max_left 0 v)

/-- Clamped values are at most one. -/
theorem clamp_le_one (v : ℚ) : clamp v ≤ 1 :=
  min_le_left 1 _

/-- Clamp is monotone. -/
theorem clamp_mono {v w : ℚ} (h : v ≤ w) : clamp v ≤ clamp w :=
  min_le_min le_rfl (max_le_max le_rfl h)

/-- Characterisation of the `findDominant` fold: the result either is the
initial accumulator and weakly dominates every entry, or it is the first
entry that strictly beats everything before it (accumulator included) and
weakly dominates everything after it. -/
theorem domStep_foldl_first (l : List (LearningCondition × ℚ))
    (acc : LearningCondition × ℚ) :
    (l.foldl domStep acc = acc ∧ ∀ e ∈ l, e.2 ≤ acc.2) ∨
    (∃ l1 l2, l = l1 ++ (l.foldl domStep acc) :: l2 ∧
      acc.2 < (l.foldl domStep acc).2 ∧
      (∀ e ∈ l1, e.2 < (l.foldl domStep acc).2) ∧
      (∀ e ∈ l2, e.2 ≤ (l.foldl domStep acc).2)) := by
  induction l generalizing acc with
  | nil => exact Or.inl ⟨rfl, by simp⟩
  | cons e l ih =>
    rw [List.foldl_cons]
    by_cases hgt : acc.2 < e.2
    · rw [show domStep acc e = e from if_pos hgt]
      rcases ih e with ⟨hfix, hall⟩ | ⟨l1, l2, hdec, hacc, hl1, hl2⟩
      · refine Or.inr ⟨[], l, ?_, ?_, ?_, ?_⟩
        · rw [hfix]; rfl
        · rw [hfix]; exact hgt
        · simp
        · rw [hfix]; exact hall
      · refine Or.inr ⟨e :: l1, l2, ?_, ?_, ?_, ?_⟩
        · rw [List.cons_append]; exact congrArg (List.cons e) hdec
        · exact lt_trans hgt hacc
        · intro x hx
          rcases List.mem_cons.mp hx with rfl | hx
          · exact hacc
          · exact hl1 x hx
        · exact hl2
    · rw [show domStep acc e = acc from if_neg hgt]
      rcases ih acc with ⟨hfix, hall⟩ | ⟨l1, l2, hdec, hacc, hl1, hl2⟩
      · refine Or.inl ⟨hfix, ?_⟩
        intro x hx
        rcases List.mem_cons.mp hx with rfl | hx
        · exact le_of_not_lt hgt
        · exact hall x hx
      · refine Or.inr ⟨e :: l1, l2, ?_, ?_, ?_, ?_⟩
        · rw [List.cons_append]; exact congrArg (List.cons e) hdec
        · exact hacc
        · intro x hx
          rcases List.mem_cons.mp hx with rfl | hx
          · exact lt_of_le_of_lt (le_of_not_lt hgt) hacc
          · exact hl1 x hx
        · exact hl2

/-- Evaluate never changes the engine configuration. -/
theorem evaluate_config (m : ℕ) (i : String) (s : LearningConditionState)
    (st : EngineState) : (evaluate m i s st).2.config = st.config := by
  simp only [evaluate]
  split
  · rfl
  · split_ifs <;> rfl

/-- A successful evaluate sets the last-intervention time to the state's
timestamp. -/
theorem evaluate_success_lastTime (m : ℕ) (i : String)
    (s : LearningConditionState) (st : EngineState)
    (h : (evaluate m i s st).1.should_intervene = true) :
    (evaluate m i s st).2.lastInterventionTime = s.t := by
  rcases hcand : conditionInterventions s.dominant with _ | ⟨c, rest⟩ <;>
    simp only [evaluate, hcand] at h ⊢
  · simp [noIntervention] at h
  · split_ifs at h ⊢ <;> simp_all [noIntervention]

-- ---------------------------------------------------------------------------
-- Claim theorems
-- ---------------------------------------------------------------------------

/-- C3: whatever the estimator state (hence for every sequence of ingested
samples and every tier), every condition state returned by `estimate` has
all five condition scores and the confidence inside `[0, 1]`. -/
theorem estimate_scores_and_confidence_in_unit
    (st : EstimatorState) (now : ℚ) (s : LearningConditionState)
    (h : (estimate now st).1 = some s) :
    (0 ≤ s.condition.attentive ∧ s.condition.attentive ≤ 1) ∧
    (0 ≤ s.condition.wandering ∧ s.condition.wandering ≤ 1) ∧
    (0 ≤ s.condition.confused ∧ s.condition.confused ≤ 1) ∧
    (0 ≤ s.condition.overloaded ∧ s.condition.overloaded ≤ 1) ∧
    (0 ≤ s.condition.fatigued ∧ s.condition.fatigued ≤ 1) ∧
    (0 ≤ s.confidence ∧ s.confidence ≤ 1) := by
  simp only [estimate] at h
  split at h
  · simp at h
  · obtain rfl := (Option.some.inj h).symm
    refine ⟨?_, ?_, ?_, ?_, ?_, ?_⟩ <;>
      exact ⟨clamp_nonneg _, clamp_le_one _⟩

/-- C3 witness: a fresh tier-0 estimator emits a state at `now = 10`, and
the theorem applies to it. -/
theorem estimate_scores_and_confidence_in_unit_witness :
    (estimate 10 (mkEstimator defaultEstimatorConfig 0)).1 = some emittedAtTen ∧
    ((0 ≤ emittedAtTen.condition.attentive ∧ emittedAtTen.condition.attentive ≤ 1) ∧
     (0 ≤ emittedAtTen.condition.wandering ∧ emittedAtTen.condition.wandering ≤ 1) ∧
     (0 ≤ emittedAtTen.condition.confused ∧ emittedAtTen.condition.confused ≤ 1) ∧
     (0 ≤ emittedAtTen.condition.overloaded ∧ emittedAtTen.condition.overloaded ≤ 1) ∧
     (0 ≤ emittedAtTen.condition.fatigued ∧ emittedAtTen.condition.fatigued ≤ 1) ∧
     (0 ≤ emittedAtTen.confidence ∧ emittedAtTen.confidence ≤ 1)) :=
  ⟨by
    norm_num [estimate, mkEstimator, defaultEstimatorConfig, emittedAtTen,
      computeConditions, computeConfidence, computeDrivers, computeNotUsed,
      findDominant, domStep, condEntries, initSmoothed, clamp, sortDriversDesc],
   estimate_scores_and_confidence_in_unit
     (mkEstimator defaultEstimatorConfig 0) 10 emittedAtTen (by
      norm_num [estimate, mkEstimator, defaultEstimatorConfig, emittedAtTen,
        computeConditions, computeConfidence, computeDrivers, computeNotUsed,
        findDominant, domStep, condEntries, initSmoothed, clamp, sortDriversDesc])⟩

/-- C5: for every class and state, the built intervention's options contain
exactly one dismiss option, and for the agency and modality classes the
action sequence is accept, alternative, dismiss (the alternative option sits
between accept and dismiss); otherwise it is accept, dismiss. -/
theorem buildIntervention_options_shape (m : ℕ) (i : String)
    (cls : InterventionClass) (state : LearningConditionState) :
    ((buildIntervention m i cls state).options.countP
        (fun o => o.action == OptionAction.dismiss) = 1) ∧
    ((buildIntervention m i cls state).options.map (fun o => o.action) =
      if cls = .agency ∨ cls = .modality then
        [.accept, .alternative, .dismiss]
      else
        [.accept, .dismiss]) := by
  cases cls <;> exact ⟨rfl, rfl⟩

/-- C9: for every estimator state and ingested sample, a missing gaze,
pose, eyes, or idle-seconds field leaves the corresponding smoothed channel
unchanged, while `interaction_pace` and `retry_rate` always take an EWMA
step (interaction telemetry is always present). -/
theorem ingest_missing_fields_hold_previous
    (sqrtQ : ℚ → ℚ) (ev : FeatureStreamEvent) (st : EstimatorState) :
    (ev.gaze = none →
      (ingest sqrtQ ev st).smoothed.gaze_stability = st.smoothed.gaze_stability) ∧
    (ev.pose = none →
      (ingest sqrtQ ev st).smoothed.pose_stability = st.smoothed.pose_stability) ∧
    (ev.eyes = none →
      (ingest sqrtQ ev st).smoothed.blink_rate = st.smoothed.blink_rate) ∧
    (ev.interaction.idle_seconds = none →
      (ingest sqrtQ ev st).smoothed.idle_time = st.smoothed.idle_time) ∧
    ((ingest sqrtQ ev st).smoothed.interaction_pace =
      ewma st.smoothed.interaction_pace ev.interaction.tap_rate_10s ALPHA) ∧
    ((ingest sqrtQ ev st).smoothed.retry_rate =
      ewma st.smoothed.retry_rate ev.interaction.retry_count_60s ALPHA) := by
  refine ⟨fun h => ?_, fun h => ?_, fun h => ?_, fun h => ?_, ?_, ?_⟩ <;>
    simp [ingest, updateSmoothedSignals, *]

/-- C9 witness: a concrete telemetry-only sample with all optional fields
absent, ingested into a fresh estimator. -/
theorem ingest_missing_fields_hold_previous_witness :
    (telemetryOnlySample.gaze = none ∧ telemetryOnlySample.pose = none ∧
     telemetryOnlySample.eyes = none ∧
     telemetryOnlySample.interaction.idle_seconds = none) ∧
    ((ingest (fun q => q) telemetryOnlySample
        (mkEstimator defaultEstimatorConfig 0)).smoothed.gaze_stability =
      (mkEstimator defaultEstimatorConfig 0).smoothed.gaze_stability ∧
     (ingest (fun q => q) telemetryOnlySample
        (mkEstimator defaultEstimatorConfig 0)).smoothed.pose_stability =
      (mkEstimator defaultEstimatorConfig 0).smoothed.pose_stability ∧
     (ingest (fun q => q) telemetryOnlySample
        (mkEstimator defaultEstimatorConfig 0)).smoothed.blink_rate =
      (mkEstimator defaultEstimatorConfig 0).smoothed.blink_rate ∧
     (ingest (fun q => q) telemetryOnlySample
        (mkEstimator defaultEstimatorConfig 0)).smoothed.idle_time =
      (mkEstimator defaultEstimatorConfig 0).smoothed.idle_time) :=
  ⟨⟨rfl, rfl, rfl, rfl⟩,
   (ingest_missing_fields_hold_previous (fun q => q) telemetryOnlySample
      (mkEstimator defaultEstimatorConfig 0)).1 rfl,
   (ingest_missing_fields_hold_previous (fun q => q) telemetryOnlySample
      (mkEstimator defaultEstimatorConfig 0)).2.1 rfl,
   (ingest_missing_fields_hold_previous (fun q => q) telemetryOnlySample
      (mkEstimator defaultEstimatorConfig 0)).2.2.1 rfl,
   (ingest_missing_fields_hold_previous (fun q => q) telemetryOnlySample
      (mkEstimator defaultEstimatorConfig 0)).2.2.2.1 rfl⟩

/-- C6: for every buffer and tier, the emitted confidence equals the
specification formula clamp(0.15·tier + min(len/100, 0.3) + gaze bonus +
face bonus + 0.10); it is monotone non-decreasing in the tier for a fixed
buffer, and never exceeds 1. -/
theorem computeConfidence_formula_mono_bounded
    (t1 t2 : ℕ) (buffer : List FeatureStreamEvent) (h : t1 ≤ t2) :
    computeConfidence t1 buffer = claimConfidenceFormula t1 buffer ∧
    computeConfidence t1 buffer ≤ computeConfidence t2 buffer ∧
    computeConfidence t1 buffer ≤ 1 ∧ computeConfidence t2 buffer ≤ 1 := by
  have formula : ∀ t : ℕ,
      computeConfidence t buffer = claimConfidenceFormula t buffer := by
    intro t
    unfold computeConfidence claimConfidenceFormula
    simp only [List.any_eq_true]
    congr 1
    ring
  refine ⟨formula t1, ?_, clamp_le_one _, clamp_le_one _⟩
  unfold computeConfidence
  apply clamp_mono
  have hc : ((t1 : ℚ)) ≤ (t2 : ℚ) := by exact_mod_cast h
  have : ((t1 : ℚ)) * 0.15 ≤ (t2 : ℚ) * 0.15 := by
    apply mul_le_mul_of_nonneg_right hc
    norm_num
  linarith

/-- C6 witness: tiers 0 and 2 on the singleton telemetry-only buffer. -/
theorem computeConfidence_formula_mono_bounded_witness :
    (0 ≤ 2 ∧
     computeConfidence 0 [telemetryOnlySample] =
       claimConfidenceFormula 0 [telemetryOnlySample] ∧
     computeConfidence 0 [telemetryOnlySample] ≤
       computeConfidence 2 [telemetryOnlySample] ∧
     computeConfidence 0 [telemetryOnlySample] ≤ 1 ∧
     computeConfidence 2 [telemetryOnlySample] ≤ 1) :=
  ⟨Nat.zero_le 2,
   computeConfidence_formula_mono_bounded 0 2 [telemetryOnlySample] (Nat.zero_le 2)⟩

/-- C7: for every five-score record with nonnegative scores (every emitted
record is clamped into [0,1]), the dominant label weakly dominates every
score, strictly dominates every earlier label in the declared priority
order (so ties break toward the earliest label), and is `attentive`
whenever all five scores are equal. -/
theorem findDominant_priority_argmax (c : ConditionProbabilities)
    (h : ∀ l, 0 ≤ condScore c l) :
    (∀ l, condScore c l ≤ condScore c (findDominant c)) ∧
    (∀ l, priorityIdx l < priorityIdx (findDominant c) →
      condScore c l < condScore c (findDominant c)) ∧
    ((∀ l m, condScore c l = condScore c m) → findDominant c = .attentive) := by
  rcases domStep_foldl_first (condEntries c) (.attentive, -1) with
    ⟨_, hall⟩ | ⟨l1, l2, hdec, _, hl1, hl2⟩
  · exfalso
    have hmem : ((LearningCondition.attentive, c.attentive) :
        LearningCondition × ℚ) ∈ condEntries c := by
      simp [condEntries]
    have := hall _ hmem
    have h0 := h .attentive
    simp only [condScore] at h0
    simp only at this
    linarith
  · rcases l1 with _ | ⟨a0, l1⟩
    · -- fold result is the attentive entry
      rw [List.nil_append] at hdec
      have hr : (condEntries c).foldl domStep (.attentive, -1) =
          (.attentive, c.attentive) := by
        have := congrArg (fun l => l.head?) hdec
        simpa [condEntries] using this.symm
      have hl2' : l2 = [(.wandering, c.wandering), (.confused, c.confused),
          (.overloaded, c.overloaded), (.fatigued, c.fatigued)] := by
        have := congrArg (fun l => l.tail) hdec
        simpa [condEntries, hr] using this.symm
      subst hl2'
      have hfd : findDominant c = .attentive := by
        unfold findDominant
        rw [hr]
      rw [hfd]
      simp only [hr] at hl2
      refine ⟨?_, ?_, ?_⟩
      · intro l
        rcases l <;> simp only [condScore] <;>
          first
            | rfl
            | (first
                | exact hl2 (.wandering, c.wandering) (by simp)
                | exact hl2 (.confused, c.confused) (by simp)
                | exact hl2 (.overloaded, c.overloaded) (by simp)
                | exact hl2 (.fatigued, c.fatigued) (by simp))
      · intro l hl
        rcases l <;> simp [priorityIdx] at hl
      · intro _
        rfl
    · rcases l1 with _ | ⟨a1, l1⟩
      · -- fold result is the wandering entry
        rw [show condEntries c =
          [(LearningCondition.attentive, c.attentive),
           (LearningCondition.wandering, c.wandering),
           (LearningCondition.confused, c.confused),
           (LearningCondition.overloaded, c.overloaded),
           (LearningCondition.fatigued, c.fatigued)] from rfl] at hdec
        simp only [List.cons_append, List.nil_append, List.cons.injEq] at hdec
        obtain ⟨ha0, hr, hl2'⟩ := hdec
        subst ha0
        have hr2 : (LearningCondition.wandering, c.wandering) =
            List.foldl domStep (LearningCondition.attentive, -1) (condEntries c) := hr
        have hfd : findDominant c = .wandering := by
          unfold findDominant
          rw [← hr2]
        have s1 : c.attentive < c.wandering := by
          have t := hl1 (.attentive, c.attentive) (by simp)
          rw [← hr2] at t
          exact t
        have w1 : c.confused ≤ c.wandering := by
          have t := hl2 (.confused, c.confused) (by rw [← hl2']; simp)
          rw [← hr2] at t
          exact t
        have w2 : c.overloaded ≤ c.wandering := by
          have t := hl2 (.overloaded, c.overloaded) (by rw [← hl2']; simp)
          rw [← hr2] at t
          exact t
        have w3 : c.fatigued ≤ c.wandering := by
          have t := hl2 (.fatigued, c.fatigued) (by rw [← hl2']; simp)
          rw [← hr2] at t
          exact t
        rw [hfd]
        refine ⟨?_, ?_, ?_⟩
        · intro l
          rcases l <;> simp only [condScore] <;> linarith
        · intro l hl
          rcases l <;> simp only [priorityIdx, condScore] at hl ⊢ <;> linarith
        · intro hall
          exfalso
          have := hall .attentive .wandering
          simp only [condScore] at this
          linarith
      · rcases l1 with _ | ⟨a2, l1⟩
        · -- fold result is the confused entry
          rw [show condEntries c =
            [(LearningCondition.attentive, c.attentive),
             (LearningCondition.wandering, c.wandering),
             (LearningCondition.confused, c.confused),
             (LearningCondition.overloaded, c.overloaded),
             (LearningCondition.fatigued, c.fatigued)] from rfl] at hdec
          simp only [List.cons_append, List.nil_append, List.cons.injEq] at hdec
          obtain ⟨ha0, ha1, hr, hl2'⟩ := hdec
          subst ha0
          subst ha1
          have hr2 : (LearningCondition.confused, c.confused) =
              List.foldl domStep (LearningCondition.attentive, -1) (condEntries c) := hr
          have hfd : findDominant c = .confused := by
            unfold findDominant
            rw [← hr2]
          have s1 : c.attentive < c.confused := by
            have t := hl1 (.attentive, c.attentive) (by simp)
            rw [← hr2] at t
            exact t
          have s2 : c.wandering < c.confused := by
            have t := hl1 (.wandering, c.wandering) (by simp)
            rw [← hr2] at t
            exact t
          have w1 : c.overloaded ≤ c.confused := by
            have t := hl2 (.overloaded, c.overloaded) (by rw [← hl2']; simp)
            rw [← hr2] at t
            exact t
          have w2 : c.fatigued ≤ c.confused := by
            have t := hl2 (.fatigued, c.fatigued) (by rw [← hl2']; simp)
            rw [← hr2] at t
            exact t
          rw [hfd]
          refine ⟨?_, ?_, ?_⟩
          · intro l
            rcases l <;> simp only [condScore] <;> linarith
          · intro l hl
            rcases l <;> simp only [priorityIdx, condScore] at hl ⊢ <;> linarith
          · intro hall
            exfalso
            have := hall .attentive .confused
            simp only [condScore] at this
            linarith
        · rcases l1 with _ | ⟨a3, l1⟩
          · -- fold result is the overloaded entry
            rw [show condEntries c =
              [(LearningCondition.attentive, c.attentive),
               (LearningCondition.wandering, c.wandering),
               (LearningCondition.confused, c.confused),
               (LearningCondition.overloaded, c.overloaded),
               (LearningCondition.fatigued, c.fatigued)] from rfl] at hdec
            simp only [List.cons_append, List.nil_append, List.cons.injEq] at hdec
            obtain ⟨ha0, ha1, ha2, hr, hl2'⟩ := hdec
            subst ha0
            subst ha1
            subst ha2
            have hr2 : (LearningCondition.overloaded, c.overloaded) =
                List.foldl domStep (LearningCondition.attentive, -1) (condEntries c) := hr
            have hfd : findDominant c = .overloaded := by
              unfold findDominant
              rw [← hr2]
            have s1 : c.attentive < c.overloaded := by
              have t := hl1 (.attentive, c.attentive) (by simp)
              rw [← hr2] at t
              exact t
            have s2 : c.wandering < c.overloaded := by
              have t := hl1 (.wandering, c.wandering) (by simp)
              rw [← hr2] at t
              exact t
            have s3 : c.confused < c.overloaded := by
              have t := hl1 (.confused, c.confused) (by simp)
              rw [← hr2] at t
              exact t
            have w1 : c.fatigued ≤ c.overloaded := by
              have t := hl2 (.fatigued, c.fatigued) (by rw [← hl2']; simp)
              rw [← hr2] at t
              exact t
            rw [hfd]
            refine ⟨?_, ?_, ?_⟩
            · intro l
              rcases l <;> simp only [condScore] <;> linarith
            · intro l hl
              rcases l <;> simp only [priorityIdx, condScore] at hl ⊢ <;> linarith
            · intro hall
              exfalso
              have := hall .attentive .overloaded
              simp only [condScore] at this
              linarith
          · rcases l1 with _ | ⟨a4, l1⟩
            · -- fold result is the fatigued entry
              rw [show condEntries c =
                [(LearningCondition.attentive, c.attentive),
                 (LearningCondition.wandering, c.wandering),
                 (LearningCondition.confused, c.confused),
                 (LearningCondition.overloaded, c.overloaded),
                 (LearningCondition.fatigued, c.fatigued)] from rfl] at hdec
              simp only [List.cons_append, List.nil_append, List.cons.injEq] at hdec
              obtain ⟨ha0, ha1, ha2, ha3, hr, hl2'⟩ := hdec
              subst ha0
              subst ha1
              subst ha2
              subst ha3
              have hr2 : (LearningCondition.fatigued, c.fatigued) =
                  List.foldl domStep (LearningCondition.attentive, -1) (condEntries c) := hr
              have hfd : findDominant c = .fatigued := by
                unfold findDominant
                rw [← hr2]
              have s1 : c.attentive < c.fatigued := by
                have t := hl1 (.attentive, c.attentive) (by simp)
                rw [← hr2] at t
                exact t
              have s2 : c.wandering < c.fatigued := by
                have t := hl1 (.wandering, c.wandering) (by simp)
                rw [← hr2] at t
                exact t
              have s3 : c.confused < c.fatigued := by
                have t := hl1 (.confused, c.confused) (by simp)
                rw [← hr2] at t
                exact t
              have s4 : c.overloaded < c.fatigued := by
                have t := hl1 (.overloaded, c.overloaded) (by simp)
                rw [← hr2] at t
                exact t
              rw [hfd]
              refine ⟨?_, ?_, ?_⟩
              · intro l
                rcases l <;> simp only [condScore] <;> linarith
              · intro l hl
                rcases l <;> simp only [priorityIdx, condScore] at hl ⊢ <;> linarith
              · intro hall
                exfalso
                have := hall .attentive .fatigued
                simp only [condScore] at this
                linarith
            · exfalso
              have := congrArg List.length hdec
              simp [condEntries] at this

/-- C7 witness: the all-equal record of 1/2 scores, whose dominant label is
attentive. -/
theorem findDominant_priority_argmax_witness :
    ((∀ l, 0 ≤ condScore ⟨1/2, 1/2, 1/2, 1/2, 1/2⟩ l) ∧
     (∀ l, condScore ⟨1/2, 1/2, 1/2, 1/2, 1/2⟩ l ≤
        condScore ⟨1/2, 1/2, 1/2, 1/2, 1/2⟩
          (findDominant ⟨1/2, 1/2, 1/2, 1/2, 1/2⟩)) ∧
     (∀ l, priorityIdx l <
        priorityIdx (findDominant ⟨1/2, 1/2, 1/2, 1/2, 1/2⟩) →
        condScore ⟨1/2, 1/2, 1/2, 1/2, 1/2⟩ l <
          condScore ⟨1/2, 1/2, 1/2, 1/2, 1/2⟩
            (findDominant ⟨1/2, 1/2, 1/2, 1/2, 1/2⟩)) ∧
     ((∀ l m, condScore ⟨1/2, 1/2, 1/2, 1/2, 1/2⟩ l =
        condScore ⟨1/2, 1/2, 1/2, 1/2, 1/2⟩ m) →
        findDominant ⟨1/2, 1/2, 1/2, 1/2, 1/2⟩ = .attentive)) :=
  ⟨fun l => by rcases l <;> norm_num [condScore],
   findDominant_priority_argmax ⟨1/2, 1/2, 1/2, 1/2, 1/2⟩
     (fun l => by rcases l <;> norm_num [condScore])⟩

/-- Bounds on the self-tuned cooldown are preserved by every single engine
operation. -/
theorem applyOp_cooldown_bounds (op : EngineOp) (st : EngineState)
    (h60 : 60 ≤ st.config.cooldown_s) (h300 : st.config.cooldown_s ≤ 300) :
    60 ≤ (applyOp op st).config.cooldown_s ∧
    (applyOp op st).config.cooldown_s ≤ 300 := by
  cases op with
  | eval m i s =>
    simp only [applyOp, evaluate_config]
    exact ⟨h60, h300⟩
  | record id c =>
    cases c with
    | dismiss =>
      exact ⟨le_min (by linarith) (by norm_num), min_le_right _ _⟩
    | accept =>
      exact ⟨le_max_right _ _, max_le (by linarith) (by norm_num)⟩
    | alternative => exact ⟨h60, h300⟩
  | updatePrefs p => exact ⟨h60, h300⟩
  | resetOp => exact ⟨h60, h300⟩

/-- Bounds on the self-tuned cooldown are preserved by every sequence of
engine operations. -/
theorem runOps_cooldown_bounds (ops : List EngineOp) :
    ∀ st : EngineState, 60 ≤ st.config.cooldown_s →
      st.config.cooldown_s ≤ 300 →
      60 ≤ (runOps ops st).config.cooldown_s ∧
      (runOps ops st).config.cooldown_s ≤ 300 := by
  induction ops with
  | nil => exact fun st h60 h300 => ⟨h60, h300⟩
  | cons op ops ih =>
    intro st h60 h300
    have hb := applyOp_cooldown_bounds op st h60 h300
    simpa [runOps, List.foldl_cons] using ih (applyOp op st) hb.1 hb.2

/-- C4 counterexample: the constructor performs no validation, so an engine
whose cooldown_s starts at 500 — outside [60, 300] — is constructible, and
no operation has yet run on it. -/
theorem cooldown_interval_claim_counterexample :
    (runOps [] (mkEngine { defaultPolicyConfig with cooldown_s := 500 })).config.cooldown_s = 500 ∧
    ¬(60 ≤ (runOps [] (mkEngine { defaultPolicyConfig with cooldown_s := 500 })).config.cooldown_s ∧
      (runOps [] (mkEngine { defaultPolicyConfig with cooldown_s := 500 })).config.cooldown_s ≤ 300) := by
  refine ⟨rfl, ?_⟩
  rintro ⟨-, h2⟩
  norm_num [runOps, mkEngine] at h2

/-- C4 amended: recordResponse with dismiss adds 15 capped at 300, accept
subtracts 5 floored at 60, alternative leaves the cooldown unchanged; and
for every engine whose cooldown_s lies in [60, 300] (as the default 120
does), every sequence of operations keeps cooldown_s within [60, 300]. -/
theorem recordResponse_effects_and_cooldown_invariant
    (st : EngineState) (id : String) (ops : List EngineOp)
    (h60 : 60 ≤ st.config.cooldown_s) (h300 : st.config.cooldown_s ≤ 300) :
    ((recordResponse id .dismiss st).config.cooldown_s =
      min (st.config.cooldown_s + 15) 300) ∧
    ((recordResponse id .accept st).config.cooldown_s =
      max (st.config.cooldown_s - 5) 60) ∧
    ((recordResponse id .alternative st).config.cooldown_s =
      st.config.cooldown_s) ∧
    (60 ≤ (runOps ops st).config.cooldown_s ∧
     (runOps ops st).config.cooldown_s ≤ 300) :=
  ⟨rfl, rfl, rfl, runOps_cooldown_bounds ops st h60 h300⟩

/-- C4 witness: the default engine under a dismiss followed by an accept. -/
theorem recordResponse_effects_and_cooldown_invariant_witness :
    (60 ≤ (mkEngine defaultPolicyConfig).config.cooldown_s ∧
     (mkEngine defaultPolicyConfig).config.cooldown_s ≤ 300) ∧
    (((recordResponse "w" .dismiss (mkEngine defaultPolicyConfig)).config.cooldown_s =
       min ((mkEngine defaultPolicyConfig).config.cooldown_s + 15) 300) ∧
     ((recordResponse "w" .accept (mkEngine defaultPolicyConfig)).config.cooldown_s =
       max ((mkEngine defaultPolicyConfig).config.cooldown_s - 5) 60) ∧
     ((recordResponse "w" .alternative (mkEngine defaultPolicyConfig)).config.cooldown_s =
       (mkEngine defaultPolicyConfig).config.cooldown_s) ∧
     (60 ≤ (runOps [.record "a" .dismiss, .record "b" .accept]
        (mkEngine defaultPolicyConfig)).config.cooldown_s ∧
      (runOps [.record "a" .dismiss, .record "b" .accept]
        (mkEngine defaultPolicyConfig)).config.cooldown_s ≤ 300)) :=
  ⟨⟨by norm_num [mkEngine, defaultPolicyConfig],
    by norm_num [mkEngine, defaultPolicyConfig]⟩,
   recordResponse_effects_and_cooldown_invariant (mkEngine defaultPolicyConfig)
     "w" [.record "a" .dismiss, .record "b" .accept]
     (by norm_num [mkEngine, defaultPolicyConfig])
     (by norm_num [mkEngine, defaultPolicyConfig])⟩

/-- C8 counterexample: a freshly constructed estimator (no sample ever
ingested) returns a fully populated state — not an empty result — when
`estimate` is called at `now = 10`. -/
theorem estimate_before_ingestion_counterexample :
    (mkEstimator defaultEstimatorConfig 0).buffer = [] ∧
    ((estimate 10 (mkEstimator defaultEstimatorConfig 0)).1).isSome = true := by
  refine ⟨rfl, ?_⟩
  norm_num [estimate, mkEstimator, defaultEstimatorConfig]

/-- C8 amended: before any ingestion, `estimate` returns the empty result
(null) exactly when less than `emit_interval_s` has elapsed since the
initial last-emission time 0; otherwise it returns a state computed from
the default smoothed signals and the empty buffer.  (In this embedding all
operations are total functions, so no call throws.) -/
theorem estimate_fresh_none_iff (cfg : EstimatorConfig) (tier : ℕ) (now : ℚ) :
    ((estimate now (mkEstimator cfg tier)).1 = none ↔
      now < cfg.emit_interval_s) ∧
    (∀ s, (estimate now (mkEstimator cfg tier)).1 = some s →
      s.condition = computeConditions initSmoothed ∧
      s.confidence = computeConfidence tier [] ∧
      s.dominant = findDominant (computeConditions initSmoothed)) := by
  constructor
  · unfold estimate mkEstimator
    simp only [sub_zero]
    split_ifs with h
    · simpa using h
    · simpa using h
  · intro s hs
    unfold estimate mkEstimator at hs
    simp only [sub_zero] at hs
    split_ifs at hs with h
    simp only [Prod.fst] at hs
    obtain rfl := Option.some.inj hs
    exact ⟨rfl, rfl, rfl⟩

/-- C8 witness: the fresh default estimator at `now = 10` emits a state,
and that state is computed from default smoothed signals and the empty
buffer. -/
theorem estimate_fresh_none_iff_witness :
    ((estimate 10 (mkEstimator defaultEstimatorConfig 0)).1 = some emittedAtTen) ∧
    (emittedAtTen.condition = computeConditions initSmoothed ∧
     emittedAtTen.confidence = computeConfidence 0 [] ∧
     emittedAtTen.dominant = findDominant (computeConditions initSmoothed)) :=
  ⟨by
    norm_num [estimate, mkEstimator, defaultEstimatorConfig, emittedAtTen,
      computeConditions, computeConfidence, computeDrivers, computeNotUsed,
      findDominant, domStep, condEntries, initSmoothed, clamp, sortDriversDesc],
   (estimate_fresh_none_iff defaultEstimatorConfig 0 10).2 emittedAtTen (by
    norm_num [estimate, mkEstimator, defaultEstimatorConfig, emittedAtTen,
      computeConditions, computeConfidence, computeDrivers, computeNotUsed,
      findDominant, domStep, condEntries, initSmoothed, clamp, sortDriversDesc])⟩

/-- C10: on the first evaluate after construction or reset (empty condition
history) with a valid nonnegative sustain window and a non-attentive
dominant label, the pushed entry is the entire trailing window, the sustain
gate passes, and the decision is never the not-sustained abstention. -/
theorem first_evaluate_never_fails_sustain
    (st : EngineState) (s : LearningConditionState) (m : ℕ) (i : String)
    (hhist : st.conditionHistory = [])
    (hw : 0 ≤ st.config.sustained_window_s)
    (_hdom : s.dominant ≠ .attentive) :
    (mkEngine st.config).conditionHistory = [] ∧
    (resetEngine st).conditionHistory = [] ∧
    pruneConditionHistory (st.conditionHistory ++ [{ t := s.t, condition := s.dominant }])
      s.t st.config.sustained_window_s = [{ t := s.t, condition := s.dominant }] ∧
    isSustained
      (pruneConditionHistory (st.conditionHistory ++ [{ t := s.t, condition := s.dominant }])
        s.t st.config.sustained_window_s)
      s.dominant s.t st.config.sustained_window_s = true ∧
    (∀ cond w, (evaluate m i s st).1.reasoning ≠ .notSustained cond w) := by
  have hnotold : ¬ ((s.t : ℚ) < s.t - st.config.sustained_window_s * 2) := by
    linarith
  have hprune : pruneConditionHistory
      (st.conditionHistory ++ [{ t := s.t, condition := s.dominant }])
      s.t st.config.sustained_window_s =
      [{ t := s.t, condition := s.dominant }] := by
    rw [hhist]
    simp [pruneConditionHistory, List.dropWhile, hnotold]
  have hrecent : (s.t : ℚ) - st.config.sustained_window_s ≤ s.t := by linarith
  have hsus : isSustained [{ t := s.t, condition := s.dominant }]
      s.dominant s.t st.config.sustained_window_s = true := by
    unfold isSustained
    simp [List.filter, hrecent]
    norm_num
  refine ⟨rfl, rfl, hprune, by rw [hprune]; exact hsus, ?_⟩
  intro cond w
  rcases hcand : conditionInterventions s.dominant with _ | ⟨c, rest⟩
  · simp [evaluate, hcand, noIntervention]
  · simp only [evaluate, hcand]
    rw [hprune]
    split_ifs with h1 h2 <;> simp_all [noIntervention, hsus]

/-- C10 witness: the first evaluate of a confused state on a fresh default
engine. -/
theorem first_evaluate_never_fails_sustain_witness :
    ((mkEngine defaultPolicyConfig).conditionHistory = [] ∧
     0 ≤ (mkEngine defaultPolicyConfig).config.sustained_window_s ∧
     (confTestState 1000).dominant ≠ .attentive) ∧
    ((mkEngine (mkEngine defaultPolicyConfig).config).conditionHistory = [] ∧
     (resetEngine (mkEngine defaultPolicyConfig)).conditionHistory = [] ∧
     pruneConditionHistory ((mkEngine defaultPolicyConfig).conditionHistory ++
        [{ t := (confTestState 1000).t, condition := (confTestState 1000).dominant }])
       (confTestState 1000).t (mkEngine defaultPolicyConfig).config.sustained_window_s =
       [{ t := (confTestState 1000).t, condition := (confTestState 1000).dominant }] ∧
     isSustained
       (pruneConditionHistory ((mkEngine defaultPolicyConfig).conditionHistory ++
          [{ t := (confTestState 1000).t, condition := (confTestState 1000).dominant }])
         (confTestState 1000).t (mkEngine defaultPolicyConfig).config.sustained_window_s)
       (confTestState 1000).dominant (confTestState 1000).t
       (mkEngine defaultPolicyConfig).config.sustained_window_s = true ∧
     (∀ cond w, (evaluate 0 "x" (confTestState 1000)
        (mkEngine defaultPolicyConfig)).1.reasoning ≠ .notSustained cond w)) :=
  ⟨⟨rfl, by norm_num [mkEngine, defaultPolicyConfig],
    by simp [confTestState]⟩,
   first_evaluate_never_fails_sustain (mkEngine defaultPolicyConfig)
     (confTestState 1000) 0 "x" rfl
     (by norm_num [mkEngine, defaultPolicyConfig])
     (by simp [confTestState])⟩

/-- C1 counterexample: with the frequency preference `more` the cooldown
gate uses 0.7 × cooldown_s = 84 s, so after a successful intervention at
t0 = 1000 a second fully qualifying state at t0 + 90 — with
0 < 90 < cooldown_s = 120 — triggers a second intervention instead of a
cooldown abstention. -/
theorem evaluate_cooldown_claim_counterexample :
    (0 : ℚ) < 90 ∧ (90 : ℚ) < morePolicyConfig.cooldown_s ∧
    (confTestState 1090).t = (confTestState 1000).t + 90 ∧
    (evaluate 0 "i1" (confTestState 1000)
      (mkEngine morePolicyConfig)).1.should_intervene = true ∧
    (evaluate 0 "i2" (confTestState 1090)
      (evaluate 0 "i1" (confTestState 1000)
        (mkEngine morePolicyConfig)).2).1.should_intervene = true := by
  refine ⟨by norm_num,
    by norm_num [morePolicyConfig, defaultPolicyConfig],
    by norm_num [confTestState], ?_, ?_⟩ <;>
    norm_num [evaluate, mkEngine, morePolicyConfig, defaultPolicyConfig,
      confTestState, conditionInterventions, adjustedThreshold,
      adjustedCooldown, isSustained, pruneConditionHistory, chooseClass,
      buildIntervention, noIntervention, responseGrammar, acceptLabel,
      List.dropWhile, List.filter]

/-- C1 amended: after a successful intervention at t0 = s0.t, any evaluate
at s.t = t0 + ε with 0 < ε < the preference-adjusted cooldown returns
should_intervene = false, and when the state passes the relevance,
confidence and sustain gates the reasoning cites the cooldown gate with the
remaining time. -/
theorem evaluate_cooldown_after_success
    (st : EngineState) (s0 s : LearningConditionState)
    (m0 m : ℕ) (i0 i : String)
    (hsucc : (evaluate m0 i0 s0 st).1.should_intervene = true)
    (_h0 : s0.t < s.t)
    (hlt : s.t - s0.t < adjustedCooldown st.config) :
    (evaluate m i s (evaluate m0 i0 s0 st).2).1.should_intervene = false ∧
    (conditionInterventions s.dominant ≠ [] →
     ¬ s.confidence < adjustedThreshold st.config →
     isSustained
       (pruneConditionHistory ((evaluate m0 i0 s0 st).2.conditionHistory ++
          [{ t := s.t, condition := s.dominant }]) s.t
          st.config.sustained_window_s)
       s.dominant s.t st.config.sustained_window_s = true →
     (evaluate m i s (evaluate m0 i0 s0 st).2).1.reasoning =
       .cooldownActive ⌈adjustedCooldown st.config - (s.t - s0.t)⌉) := by
  set st0 := (evaluate m0 i0 s0 st).2 with hst0
  have hcfg : st0.config = st.config := by
    rw [hst0]
    exact evaluate_config m0 i0 s0 st
  have hlast : st0.lastInterventionTime = s0.t := by
    rw [hst0]
    exact evaluate_success_lastTime m0 i0 s0 st hsucc
  clear hst0 hsucc
  rcases hcand : conditionInterventions s.dominant with _ | ⟨c, rest⟩
  · exact ⟨by simp [evaluate, hcand, noIntervention],
      fun hne => absurd rfl hne⟩
  · simp only [evaluate, hcand]
    rw [hcfg, hlast]
    split_ifs with h1 h2
    · exact ⟨rfl, fun _ hc _ => absurd h1 hc⟩
    · refine ⟨rfl, fun _ _ hs => ?_⟩
      rw [hs] at h2
      simp at h2
    · exact ⟨rfl, fun _ _ _ => rfl⟩

/-- C1 witness: default engine, successful intervention at t0 = 1000, next
qualifying evaluate at t0 + 1 abstains citing the cooldown. -/
theorem evaluate_cooldown_after_success_witness :
    ((evaluate 0 "w1" (confTestState 1000)
        (mkEngine defaultPolicyConfig)).1.should_intervene = true ∧
     (confTestState 1000).t < (confTestState 1001).t ∧
     (confTestState 1001).t - (confTestState 1000).t <
       adjustedCooldown (mkEngine defaultPolicyConfig).config) ∧
    ((evaluate 1 "w2" (confTestState 1001)
        (evaluate 0 "w1" (confTestState 1000)
          (mkEngine defaultPolicyConfig)).2).1.should_intervene = false ∧
     (conditionInterventions (confTestState 1001).dominant ≠ [] →
      ¬ (confTestState 1001).confidence <
        adjustedThreshold (mkEngine defaultPolicyConfig).config →
      isSustained
        (pruneConditionHistory
          ((evaluate 0 "w1" (confTestState 1000)
            (mkEngine defaultPolicyConfig)).2.conditionHistory ++
           [{ t := (confTestState 1001).t,
              condition := (confTestState 1001).dominant }])
          (confTestState 1001).t
          (mkEngine defaultPolicyConfig).config.sustained_window_s)
        (confTestState 1001).dominant (confTestState 1001).t
        (mkEngine defaultPolicyConfig).config.sustained_window_s = true →
      (evaluate 1 "w2" (confTestState 1001)
        (evaluate 0 "w1" (confTestState 1000)
          (mkEngine defaultPolicyConfig)).2).1.reasoning =
        .cooldownActive
          ⌈adjustedCooldown (mkEngine defaultPolicyConfig).config -
            ((confTestState 1001).t - (confTestState 1000).t)⌉)) :=
  ⟨⟨by
      norm_num [evaluate, mkEngine, defaultPolicyConfig, confTestState,
        conditionInterventions, adjustedThreshold, adjustedCooldown,
        isSustained, pruneConditionHistory, chooseClass, buildIntervention,
        noIntervention, responseGrammar, acceptLabel, List.dropWhile,
        List.filter],
    by norm_num [confTestState],
    by norm_num [confTestState, mkEngine, defaultPolicyConfig,
      adjustedCooldown]⟩,
   evaluate_cooldown_after_success (mkEngine defaultPolicyConfig)
     (confTestState 1000) (confTestState 1001) 0 1 "w1" "w2"
     (by
      norm_num [evaluate, mkEngine, defaultPolicyConfig, confTestState,
        conditionInterventions, adjustedThreshold, adjustedCooldown,
        isSustained, pruneConditionHistory, chooseClass, buildIntervention,
        noIntervention, responseGrammar, acceptLabel, List.dropWhile,
        List.filter])
     (by norm_num [confTestState])
     (by norm_num [confTestState, mkEngine, defaultPolicyConfig,
       adjustedCooldown])⟩

/-- C2 counterexample: after ten attentive-dominant evaluates at
t = 0, 1, ..., 9, a confused-dominant evaluate at t = 25 sees a condition
history of exactly those ten attentive entries followed by the one confused
entry (the attentive entries survive the 2x-window pruning but fall outside
the trailing 15 s window), and the sustain gate passes: the decision even
reaches the cooldown gate. -/
theorem sustain_gate_claim_counterexample :
    tenAttentiveEngine =
      { config := defaultPolicyConfig, history := [],
        lastInterventionTime := 0,
        conditionHistory :=
        [{ t := 0, condition := .attentive }, { t := 1, condition := .attentive },
         { t := 2, condition := .attentive }, { t := 3, condition := .attentive },
         { t := 4, condition := .attentive }, { t := 5, condition := .attentive },
         { t := 6, condition := .attentive }, { t := 7, condition := .attentive },
         { t := 8, condition := .attentive }, { t := 9, condition := .attentive }] } ∧
    isSustained
      (pruneConditionHistory
        (tenAttentiveEngine.conditionHistory ++
          [{ t := 25, condition := .confused }])
        25 defaultPolicyConfig.sustained_window_s)
      .confused 25 defaultPolicyConfig.sustained_window_s = true ∧
    (evaluate 0 "c" (confTestState 25) tenAttentiveEngine).1.reasoning =
      .cooldownActive 95 := by
  have heng : tenAttentiveEngine =
      { config := defaultPolicyConfig, history := [],
        lastInterventionTime := 0,
        conditionHistory :=
        [{ t := 0, condition := .attentive }, { t := 1, condition := .attentive },
         { t := 2, condition := .attentive }, { t := 3, condition := .attentive },
         { t := 4, condition := .attentive }, { t := 5, condition := .attentive },
         { t := 6, condition := .attentive }, { t := 7, condition := .attentive },
         { t := 8, condition := .attentive }, { t := 9, condition := .attentive }] } := by
    norm_num [tenAttentiveEngine, runOps, applyOp, List.range, List.range.loop,
      evaluate, mkEngine, defaultPolicyConfig, attTestState,
      conditionInterventions, noIntervention, pruneConditionHistory,
      List.dropWhile]
  refine ⟨heng, ?_, ?_⟩ <;> rw [heng] <;>
    norm_num [evaluate, defaultPolicyConfig, confTestState,
      conditionInterventions, adjustedThreshold, adjustedCooldown,
      isSustained, pruneConditionHistory, chooseClass, buildIntervention,
      noIntervention, responseGrammar, acceptLabel, List.dropWhile,
      List.filter]

/-- C2 amended: whenever the condition history at the final call consists
of attentive entries followed by the one confused entry and at least one of
the attentive entries still lies inside the trailing sustained window, the
confused call fails the sustain gate (the confused entry is at most half of
the trailing window, below the 60% bar). -/
theorem sustain_gate_attentive_prefix_fails
    (A : List ConditionHistoryEntry) (tN w : ℚ)
    (hA : ∀ e ∈ A, e.condition = .attentive)
    (hw : 0 ≤ w)
    (hex : ∃ e ∈ A, tN - w ≤ e.t) :
    isSustained (A ++ [{ t := tN, condition := .confused }])
      .confused tN w = false := by
  simp only [isSustained]
  have hsingle : List.filter (fun h => decide (tN - w ≤ h.t))
      [({ t := tN, condition := .confused } : ConditionHistoryEntry)] =
      [{ t := tN, condition := .confused }] := by
    have ht : tN - w ≤ tN := by linarith
    simp [List.filter, ht]
  rw [List.filter_append, hsingle]
  have hmatch : List.filter
      (fun h => decide (h.condition = LearningCondition.confused))
      (List.filter (fun h => decide (tN - w ≤ h.t)) A ++
        [{ t := tN, condition := .confused }]) =
      [{ t := tN, condition := .confused }] := by
    rw [List.filter_append]
    have h1 : List.filter
        (fun h => decide (h.condition = LearningCondition.confused))
        (List.filter (fun h => decide (tN - w ≤ h.t)) A) = [] := by
      rw [List.filter_eq_nil_iff]
      intro e he
      have heA := List.mem_of_mem_filter he
      simp [hA e heA]
    rw [h1]
    simp
  rw [hmatch]
  have hk : 1 ≤ (List.filter (fun h => decide (tN - w ≤ h.t)) A).length := by
    obtain ⟨e, heA, het⟩ := hex
    exact List.length_pos_of_mem
      (List.mem_filter.mpr ⟨heA, decide_eq_true het⟩)
  rw [if_neg (by simp)]
  apply decide_eq_false
  intro hge
  have hpos : (0 : ℚ) <
      ((List.filter (fun h => decide (tN - w ≤ h.t)) A ++
        [({ t := tN, condition := .confused } : ConditionHistoryEntry)]).length : ℚ) := by
    have h0 : 0 < (List.filter (fun h => decide (tN - w ≤ h.t)) A ++
        [({ t := tN, condition := .confused } : ConditionHistoryEntry)]).length := by
      simp
    exact_mod_cast h0
  rw [ge_iff_le, le_div_iff₀ hpos] at hge
  have hcast : (1 : ℚ) ≤
      ((List.filter (fun h => decide (tN - w ≤ h.t)) A).length : ℚ) := by
    exact_mod_cast hk
  simp only [List.length_append, List.length_singleton] at hge
  push_cast at hge
  linarith

/-- C2 witness: ten attentive entries at t = 0..9 with the confused entry
at t = 10 (1-second cadence), window 15. -/
theorem sustain_gate_attentive_prefix_fails_witness :
    ((∀ e ∈ ([{ t := 0, condition := .attentive },
        { t := 1, condition := .attentive }, { t := 2, condition := .attentive },
        { t := 3, condition := .attentive }, { t := 4, condition := .attentive },
        { t := 5, condition := .attentive }, { t := 6, condition := .attentive },
        { t := 7, condition := .attentive }, { t := 8, condition := .attentive },
        { t := 9, condition := .attentive }] : List ConditionHistoryEntry),
        e.condition = .attentive) ∧
      (0 : ℚ) ≤ 15 ∧
      (∃ e ∈ ([{ t := 0, condition := .attentive },
        { t := 1, condition := .attentive }, { t := 2, condition := .attentive },
        { t := 3, condition := .attentive }, { t := 4, condition := .attentive },
        { t := 5, condition := .attentive }, { t := 6, condition := .attentive },
        { t := 7, condition := .attentive }, { t := 8, condition := .attentive },
        { t := 9, condition := .attentive }] : List ConditionHistoryEntry),
        (10 : ℚ) - 15 ≤ e.t)) ∧
    isSustained
      (([{ t := 0, condition := .attentive },
        { t := 1, condition := .attentive }, { t := 2, condition := .attentive },
        { t := 3, condition := .attentive }, { t := 4, condition := .attentive },
        { t := 5, condition := .attentive }, { t := 6, condition := .attentive },
        { t := 7, condition := .attentive }, { t := 8, condition := .attentive },
        { t := 9, condition := .attentive }] : List ConditionHistoryEntry) ++
        [{ t := 10, condition := .confused }]) .confused 10 15 = false :=
  ⟨⟨by intro e he; simp at he; rcases he with h | h | h | h | h | h | h | h | h | h <;> simp [h],
    by norm_num,
    ⟨{ t := 9, condition := .attentive }, by simp, by norm_num⟩⟩,
   sustain_gate_attentive_prefix_fails _ 10 15
     (by intro e he; simp at he; rcases he with h | h | h | h | h | h | h | h | h | h <;> simp [h])
     (by norm_num)
     ⟨{ t := 9, condition := .attentive }, by simp, by norm_num⟩⟩

end Aegis
